import Mathlib

/-!
# PaynesDashboard — widget/auth subsystem, shallow embedding

This file embeds the OAuth2 token-lifecycle manager (`src/auth/OAuth2Manager.ts`),
the widget base contract (`src/widgets/BaseWidget.ts`), several vendor widgets
(TikTok, Facebook, Google Play, Amazon Affiliate) and the widget registry
(`src/widgets/WidgetRegistry.ts`) as pure Lean functions, and proves/refutes the
behavioural claims of the specification against them.

Modelling conventions:
* `Date` values are epoch milliseconds (`Int`); `Date.now()` is an explicit
  `now : Int` argument.
* TypeScript optional fields become `Option _`.  JavaScript truthiness tests
  (`if (x)`) on optional strings are `strTruthy` (absent and `""` are falsy),
  and on optional numbers are "present and nonzero".
* `async` methods that can `throw` return `Except String _`; the thrown
  `Error`'s message is the `String`.  A `try`/`catch` block is an explicit
  `match` on the `Except` produced by the guarded code.
* Outbound HTTP is modelled by passing the observable outcome of the one
  `fetch` a method performs as an explicit argument: either a response with a
  status code (plus a parsed JSON body where the code reads one) or a thrown
  network error.
-/

namespace Dashboard

/-- JavaScript truthiness of an optional string: `undefined` and `""` are
falsy, every other string is truthy. -/
def strTruthy : Option String → Bool
  | none => false
  | some s => !(s == "")

/-- `response.ok` of the Fetch API: status in the inclusive range 200–299. -/
def httpOk (status : Nat) : Bool :=
  200 ≤ status && status ≤ 299

/-- Body of a successful OAuth2 token-endpoint response
(`TokenResponse` in `src/auth/OAuth2Manager.ts`). -/
structure TokenResponse where
  access_token : String
  token_type : String
  expires_in : Option Int
  refresh_token : Option String
  scope : Option String
deriving DecidableEq, Repr

/-- `OAuth2Config` as used by `OAuth2Manager`: static client settings plus the
mutable token fields (`accessToken?`, `refreshToken?`, `expiresAt?: Date`). -/
structure OAuth2Config where
  clientId : String
  clientSecret : String
  redirectUri : String
  scope : List String
  authorizationUrl : String
  tokenUrl : String
  accessToken : Option String
  refreshToken : Option String
  expiresAt : Option Int
deriving DecidableEq, Repr

/-- Observable outcome of the `fetch` to the OAuth2 token endpoint: a response
carrying a status, the JSON body read on success and the text read on failure,
or a thrown network error. -/
inductive TokenFetchOutcome where
  | resp (status : Nat) (body : TokenResponse) (errorText : String)
  | netError (msg : String)
deriving DecidableEq, Repr

namespace OAuth2

/-- `OAuth2Manager.updateTokens`: store `access_token`; overwrite the refresh
token only when the response carries a truthy `refresh_token`; recompute
`expiresAt = now + expires_in * 1000` only when `expires_in` is truthy
(present and nonzero). -/
def updateTokens (cfg : OAuth2Config) (now : Int) (tr : TokenResponse) : OAuth2Config :=
  { cfg with
    accessToken := some tr.access_token
    refreshToken :=
      if strTruthy tr.refresh_token then tr.refresh_token else cfg.refreshToken
    expiresAt :=
      match tr.expires_in with
      | some e => if e == 0 then cfg.expiresAt else some (now + e * 1000)
      | none => cfg.expiresAt }

/-- `OAuth2Manager.refreshAccessToken`: throws when no (truthy) refresh token
is stored; otherwise POSTs to the token endpoint and, on a 2xx response,
stores the returned tokens via `updateTokens`.  The returned pair is the
method's result together with the manager's state after the call. -/
def refreshAccessToken (cfg : OAuth2Config) (now : Int) (outcome : TokenFetchOutcome) :
    Except String TokenResponse × OAuth2Config :=
  if !(strTruthy cfg.refreshToken) then
    (.error "No refresh token available", cfg)
  else
    match outcome with
    | .netError msg => (.error msg, cfg)
    | .resp status body errorText =>
      if httpOk status then
        (.ok body, updateTokens cfg now body)
      else
        (.error ("Token refresh failed: " ++ toString status ++ " - " ++ errorText), cfg)

/-- `OAuth2Manager.isTokenExpired`: false when no `expiresAt` is stored,
otherwise `now >= expiresAt - bufferSeconds * 1000`. -/
def isTokenExpired (cfg : OAuth2Config) (now : Int) (bufferSeconds : Int) : Bool :=
  match cfg.expiresAt with
  | none => false
  | some e => decide (e - bufferSeconds * 1000 ≤ now)

/-- `OAuth2Manager.isAuthenticated`: `!!accessToken`. -/
def isAuthenticated (cfg : OAuth2Config) : Bool :=
  strTruthy cfg.accessToken

/-- `OAuth2Manager.getValidAccessToken`: throws when no access token is
stored; refreshes (with the default 60 s buffer) when the stored token is
expired; returns the access token stored after the possible refresh.  The
result triple is (method result, manager state after the call, number of
`refreshAccessToken` invocations performed). -/
def getValidAccessToken (cfg : OAuth2Config) (now : Int) (outcome : TokenFetchOutcome) :
    Except String String × OAuth2Config × Nat :=
  if !(strTruthy cfg.accessToken) then
    (.error "No access token available. Please authenticate first.", cfg, 0)
  else if isTokenExpired cfg now 60 then
    match refreshAccessToken cfg now outcome with
    | (.error e, cfg2) => (.error e, cfg2, 1)
    | (.ok _, cfg2) => (.ok (cfg2.accessToken.getD ""), cfg2, 1)
  else
    (.ok (cfg.accessToken.getD ""), cfg, 0)

/-- `OAuth2Manager.setTokens`: store the access token; overwrite the refresh
token only when a truthy one is given; overwrite `expiresAt` only when a
`Date` is given (every `Date` object is truthy). -/
def setTokens (cfg : OAuth2Config) (accessToken : String) (refreshToken : Option String)
    (expiresAt : Option Int) : OAuth2Config :=
  { cfg with
    accessToken := some accessToken
    refreshToken :=
      if strTruthy refreshToken then refreshToken else cfg.refreshToken
    expiresAt :=
      match expiresAt with
      | some e => some e
      | none => cfg.expiresAt }

end OAuth2

/-- `AuthConfig`: caller-supplied credentials record
(`{ id, type, credentials: Record<string,string> }`). -/
structure AuthConfig where
  id : String
  type : String
  credentials : List (String × String)
deriving DecidableEq, Repr

/-- Read one key of a `Record<string,string>` credentials object. -/
def credLookup (creds : List (String × String)) (k : String) : Option String :=
  (creds.find? (fun p => p.1 == k)).map (fun p => p.2)

/-- `WidgetConfig` (the fields the embedded widgets read: `id`, `type` and the
string-valued entries of `customConfig`). -/
structure WidgetConfig where
  id : String
  type : String
  customConfig : List (String × String)
deriving DecidableEq, Repr

/-- `TimeRange`: a start/end pair of `Date`s. -/
structure TimeRange where
  startDate : Int
  endDate : Int
deriving DecidableEq, Repr

/-- `AnalyticsMetrics` (the fields the embedded widgets construct). -/
structure AnalyticsMetrics where
  totalDownloads : Option Int
  totalRevenue : Option Int
  currency : Option String
  activeUsers : Option Int
  trend : List Int
deriving DecidableEq, Repr

/-- One row of `SalesData`. -/
structure SalesData where
  productId : String
  productName : String
  quantity : Int
  revenue : Int
  currency : String
  date : Int
deriving DecidableEq, Repr

/-- One row of `DownloadStats`. -/
structure DownloadStats where
  date : Int
  downloads : Int
deriving DecidableEq, Repr

/-- `WidgetDataResult<T>`: the tagged result envelope every data-fetch call
returns.  `success` carries `data` and `lastUpdated`; `failure` carries the
error record `{code, message, timestamp, recoverable}` (and a `lastUpdated`
equal to the same construction instant). -/
inductive WidgetDataResult (α : Type) where
  | success (data : α) (lastUpdated : Int)
  | failure (code : String) (message : String) (timestamp : Int) (recoverable : Bool)
deriving DecidableEq, Repr

/-- `BaseWidget.createSuccessResult`. -/
def createSuccessResult {α : Type} (data : α) (now : Int) : WidgetDataResult α :=
  .success data now

/-- `BaseWidget.createErrorResult`. -/
def createErrorResult (α : Type) (code message : String) (recoverable : Bool) (now : Int) :
    WidgetDataResult α :=
  .failure code message now recoverable

/-- The message of the `Error` thrown by `BaseWidget.ensureInitialized`. -/
def notInitializedMsg (t : String) : String :=
  "Widget " ++ t ++ " is not initialized. Call initialize() first."

/-- Observable outcome of a vendor-API `fetch`: a response with a status code,
or a thrown network error. -/
inductive FetchOutcome where
  | resp (status : Nat)
  | netError (msg : String)
deriving DecidableEq, Repr

/-- `try body catch (error) { return createErrorResult('FETCH_ERROR', message, true) }`:
the catch-all wrapper every embedded data-fetch method ends with. -/
def catchFetchError (α : Type) (now : Int) (body : Except String (WidgetDataResult α)) :
    WidgetDataResult α :=
  match body with
  | .ok r => r
  | .error msg => createErrorResult α "FETCH_ERROR" msg true now

namespace TikTok

/-- State of a `TikTokWidget`: the `BaseWidget` fields plus its private
`oauth2Manager`. -/
structure Widget where
  initialized : Bool
  authConfig : Option AuthConfig
  oauth2Manager : Option OAuth2Config
deriving DecidableEq, Repr

/-- `new TikTokWidget(config)`. -/
def mkWidget : Widget :=
  { initialized := false, authConfig := none, oauth2Manager := none }

/-- `TikTokWidget.validateAuth`: requires truthy `clientKey`/`clientSecret`
credentials, builds the OAuth2 manager, and injects stored tokens when a
truthy `accessToken` credential is present. -/
def validateAuth (w : Widget) : Except String Widget :=
  match w.authConfig with
  | none => .error "Authentication configuration is required"
  | some ac =>
    let clientKey := credLookup ac.credentials "clientKey"
    let clientSecret := credLookup ac.credentials "clientSecret"
    if !(strTruthy clientKey) || !(strTruthy clientSecret) then
      .error "TikTok auth requires clientKey and clientSecret"
    else
      let cfg : OAuth2Config :=
        { clientId := clientKey.getD ""
          clientSecret := clientSecret.getD ""
          redirectUri := "http://localhost:3000/callback/tiktok"
          scope := ["user.info.basic", "user.info.stats", "video.list"]
          authorizationUrl := "https://www.tiktok.com/v2/auth/authorize"
          tokenUrl := "https://open.tiktokapis.com/v2/oauth/token/"
          accessToken := credLookup ac.credentials "accessToken"
          refreshToken := credLookup ac.credentials "refreshToken"
          expiresAt := none }
      let mgr :=
        if strTruthy (credLookup ac.credentials "accessToken") then
          OAuth2.setTokens cfg ((credLookup ac.credentials "accessToken").getD "")
            (credLookup ac.credentials "refreshToken") none
        else cfg
      .ok { w with oauth2Manager := some mgr }

/-- `BaseWidget.initialize` specialised to `TikTokWidget`: record the auth
config, run `validateAuth`, then mark the widget initialized. -/
def initWidget (w : Widget) (ac : AuthConfig) : Except String Widget :=
  match validateAuth { w with authConfig := some ac } with
  | .error e => .error e
  | .ok w2 => .ok { w2 with initialized := true }

/-- `BaseWidget.disconnect` as inherited by `TikTokWidget`. -/
def disconnect (w : Widget) : Widget :=
  { w with initialized := false, authConfig := none }

/-- `TikTokWidget.isAuthenticated`. -/
def isAuthenticated (w : Widget) : Bool :=
  match w.oauth2Manager with
  | none => false
  | some m => OAuth2.isAuthenticated m

/-- `TikTokUserStats` as returned by the stubbed `getUserStats`. -/
structure UserStats where
  followerCount : Int
  followingCount : Int
  likesCount : Int
  videoCount : Int
deriving DecidableEq, Repr

/-- `TikTokWidget.getUserStats`: throws the network error, throws
`TikTok API error: <status>` on a non-2xx response, and otherwise returns the
placeholder all-zero stats. -/
def getUserStats (outcome : FetchOutcome) : Except String UserStats :=
  match outcome with
  | .netError msg => .error msg
  | .resp status =>
    if httpOk status then
      .ok { followerCount := 0, followingCount := 0, likesCount := 0, videoCount := 0 }
    else
      .error ("TikTok API error: " ++ toString status)

/-- The `try` block of `TikTokWidget.getMetrics`: obtain a valid token from
the manager (the `oauth2Manager!` non-null assertion throws a `TypeError`
when the manager is absent), fetch user stats, and build the metrics. -/
def metricsFetch (w : Widget) (now : Int) (tokenOutcome : TokenFetchOutcome)
    (vendorOutcome : FetchOutcome) : Except String (WidgetDataResult AnalyticsMetrics) :=
  match w.oauth2Manager with
  | none => .error "Cannot read properties of undefined (reading \x27getValidAccessToken\x27)"
  | some m =>
    match (OAuth2.getValidAccessToken m now tokenOutcome).1 with
    | .error e => .error e
    | .ok _token =>
      match getUserStats vendorOutcome with
      | .error e => .error e
      | .ok stats =>
        .ok (createSuccessResult
          { totalDownloads := some stats.likesCount
            totalRevenue := none
            currency := none
            activeUsers := some stats.followerCount
            trend := [] } now)

/-- `TikTokWidget.getMetrics`: `ensureInitialized()` throws outside the
`try`; every exception inside becomes a `FETCH_ERROR` result. -/
def getMetrics (w : Widget) (_tr : TimeRange) (now : Int) (tokenOutcome : TokenFetchOutcome)
    (vendorOutcome : FetchOutcome) : Except String (WidgetDataResult AnalyticsMetrics) :=
  if !w.initialized then
    .error (notInitializedMsg "tiktok")
  else
    .ok (catchFetchError AnalyticsMetrics now (metricsFetch w now tokenOutcome vendorOutcome))

/-- `TikTokWidget.getSalesData`: TikTok has no sales data; returns empty
success without any initialization check. -/
def getSalesData (_w : Widget) (_tr : TimeRange) (now : Int) :
    Except String (WidgetDataResult (List SalesData)) :=
  .ok (createSuccessResult ([] : List SalesData) now)

/-- `TikTokWidget.getDownloadStats`: not applicable; empty success without any
initialization check. -/
def getDownloadStats (_w : Widget) (_tr : TimeRange) (now : Int) :
    Except String (WidgetDataResult (List DownloadStats)) :=
  .ok (createSuccessResult ([] : List DownloadStats) now)

end TikTok

namespace Facebook

/-- State of a `FacebookWidget`: `BaseWidget` fields plus `oauth2Manager` and
`pageId`. -/
structure Widget where
  initialized : Bool
  authConfig : Option AuthConfig
  oauth2Manager : Option OAuth2Config
  pageId : Option String
deriving DecidableEq, Repr

/-- `new FacebookWidget(config)`: seeds `pageId` from
`config.customConfig?.['pageId']`. -/
def mkWidget (config : WidgetConfig) : Widget :=
  { initialized := false, authConfig := none, oauth2Manager := none
    pageId := credLookup config.customConfig "pageId" }

/-- `FacebookWidget.validateAuth`: requires truthy `clientId`/`clientSecret`,
builds the manager, injects stored tokens, and overrides `pageId` from the
credentials when present (`?? ` keeps the constructor value only when the
credential is absent). -/
def validateAuth (w : Widget) : Except String Widget :=
  match w.authConfig with
  | none => .error "Authentication configuration is required"
  | some ac =>
    let clientId := credLookup ac.credentials "clientId"
    let clientSecret := credLookup ac.credentials "clientSecret"
    if !(strTruthy clientId) || !(strTruthy clientSecret) then
      .error "Facebook auth requires clientId and clientSecret"
    else
      let cfg : OAuth2Config :=
        { clientId := clientId.getD ""
          clientSecret := clientSecret.getD ""
          redirectUri := "http://localhost:3000/callback/facebook"
          scope := ["pages_show_list", "pages_read_engagement",
                    "pages_read_user_content", "read_insights"]
          authorizationUrl := "https://www.facebook.com/v18.0/dialog/oauth"
          tokenUrl := "https://graph.facebook.com/v18.0/oauth/access_token"
          accessToken := credLookup ac.credentials "accessToken"
          refreshToken := credLookup ac.credentials "refreshToken"
          expiresAt := none }
      let mgr :=
        if strTruthy (credLookup ac.credentials "accessToken") then
          OAuth2.setTokens cfg ((credLookup ac.credentials "accessToken").getD "")
            (credLookup ac.credentials "refreshToken") none
        else cfg
      let pageId :=
        match credLookup ac.credentials "pageId" with
        | some p => some p
        | none => w.pageId
      .ok { w with oauth2Manager := some mgr, pageId := pageId }

/-- `BaseWidget.initialize` specialised to `FacebookWidget`. -/
def initWidget (w : Widget) (ac : AuthConfig) : Except String Widget :=
  match validateAuth { w with authConfig := some ac } with
  | .error e => .error e
  | .ok w2 => .ok { w2 with initialized := true }

/-- `BaseWidget.disconnect` as inherited by `FacebookWidget`. -/
def disconnect (w : Widget) : Widget :=
  { w with initialized := false, authConfig := none }

/-- `FacebookWidget.isAuthenticated`. -/
def isAuthenticated (w : Widget) : Bool :=
  match w.oauth2Manager with
  | none => false
  | some m => OAuth2.isAuthenticated m

/-- `FacebookPageInsights` as returned by the stubbed `getPageInsights`. -/
structure PageInsights where
  pageLikes : Int
  pageFollowers : Int
  postReach : Int
  postEngagement : Int
  pageViews : Int
deriving DecidableEq, Repr

/-- `FacebookWidget.getPageInsights`: throws the network error, throws
`Facebook API error: <status>` on a non-2xx response, otherwise returns
placeholder all-zero insights. -/
def getPageInsights (outcome : FetchOutcome) : Except String PageInsights :=
  match outcome with
  | .netError msg => .error msg
  | .resp status =>
    if httpOk status then
      .ok { pageLikes := 0, pageFollowers := 0, postReach := 0
            postEngagement := 0, pageViews := 0 }
    else
      .error ("Facebook API error: " ++ toString status)

/-- The `try` block of `FacebookWidget.getMetrics`: a falsy `pageId` returns a
non-recoverable `CONFIG_ERROR` result; then token acquisition and the
insights fetch. -/
def metricsFetch (w : Widget) (now : Int) (tokenOutcome : TokenFetchOutcome)
    (vendorOutcome : FetchOutcome) : Except String (WidgetDataResult AnalyticsMetrics) :=
  if !(strTruthy w.pageId) then
    .ok (createErrorResult AnalyticsMetrics "CONFIG_ERROR"
      "Page ID is required in widget configuration" false now)
  else
    match w.oauth2Manager with
    | none => .error "Cannot read properties of undefined (reading \x27getValidAccessToken\x27)"
    | some m =>
      match (OAuth2.getValidAccessToken m now tokenOutcome).1 with
      | .error e => .error e
      | .ok _token =>
        match getPageInsights vendorOutcome with
        | .error e => .error e
        | .ok insights =>
          .ok (createSuccessResult
            { totalDownloads := some insights.pageLikes
              totalRevenue := none
              currency := none
              activeUsers := some insights.pageFollowers
              trend := [] } now)

/-- `FacebookWidget.getMetrics`: `ensureInitialized()` throws outside the
`try`; every exception inside becomes a `FETCH_ERROR` result. -/
def getMetrics (w : Widget) (_tr : TimeRange) (now : Int) (tokenOutcome : TokenFetchOutcome)
    (vendorOutcome : FetchOutcome) : Except String (WidgetDataResult AnalyticsMetrics) :=
  if !w.initialized then
    .error (notInitializedMsg "facebook")
  else
    .ok (catchFetchError AnalyticsMetrics now (metricsFetch w now tokenOutcome vendorOutcome))

/-- `FacebookWidget.getSalesData`: Facebook has no sales data; empty success
without any initialization check. -/
def getSalesData (_w : Widget) (_tr : TimeRange) (now : Int) :
    Except String (WidgetDataResult (List SalesData)) :=
  .ok (createSuccessResult ([] : List SalesData) now)

/-- `FacebookWidget.getDownloadStats`: not applicable; empty success without
any initialization check. -/
def getDownloadStats (_w : Widget) (_tr : TimeRange) (now : Int) :
    Except String (WidgetDataResult (List DownloadStats)) :=
  .ok (createSuccessResult ([] : List DownloadStats) now)

end Facebook

namespace GooglePlay

/-- State of a `GooglePlayWidget`: `BaseWidget` fields plus `oauth2Manager`
and `packageName`. -/
structure Widget where
  initialized : Bool
  authConfig : Option AuthConfig
  oauth2Manager : Option OAuth2Config
  packageName : Option String
deriving DecidableEq, Repr

/-- `new GooglePlayWidget(config)`: seeds `packageName` from
`config.customConfig?.['packageName']`. -/
def mkWidget (config : WidgetConfig) : Widget :=
  { initialized := false, authConfig := none, oauth2Manager := none
    packageName := credLookup config.customConfig "packageName" }

/-- `GooglePlayWidget.validateAuth`: requires truthy `clientId`/`clientSecret`
and builds the OAuth2 manager (injecting stored tokens when present). -/
def validateAuth (w : Widget) : Except String Widget :=
  match w.authConfig with
  | none => .error "Authentication configuration is required"
  | some ac =>
    let clientId := credLookup ac.credentials "clientId"
    let clientSecret := credLookup ac.credentials "clientSecret"
    if !(strTruthy clientId) || !(strTruthy clientSecret) then
      .error "Google Play auth requires clientId and clientSecret"
    else
      let cfg : OAuth2Config :=
        { clientId := clientId.getD ""
          clientSecret := clientSecret.getD ""
          redirectUri := "http://localhost:3000/callback/google"
          scope := ["https://www.googleapis.com/auth/androidpublisher"]
          authorizationUrl := "https://accounts.google.com/o/oauth2/v2/auth"
          tokenUrl := "https://oauth2.googleapis.com/token"
          accessToken := credLookup ac.credentials "accessToken"
          refreshToken := credLookup ac.credentials "refreshToken"
          expiresAt := none }
      let mgr :=
        if strTruthy (credLookup ac.credentials "accessToken") then
          OAuth2.setTokens cfg ((credLookup ac.credentials "accessToken").getD "")
            (credLookup ac.credentials "refreshToken") none
        else cfg
      .ok { w with oauth2Manager := some mgr }

/-- `BaseWidget.initialize` specialised to `GooglePlayWidget`. -/
def initWidget (w : Widget) (ac : AuthConfig) : Except String Widget :=
  match validateAuth { w with authConfig := some ac } with
  | .error e => .error e
  | .ok w2 => .ok { w2 with initialized := true }

/-- `BaseWidget.disconnect` as inherited by `GooglePlayWidget`. -/
def disconnect (w : Widget) : Widget :=
  { w with initialized := false, authConfig := none }

/-- The `try` block of `GooglePlayWidget.getMetrics`: a falsy `packageName`
returns a non-recoverable `CONFIG_ERROR` result; a thrown `fetch` error
propagates to the `catch`; a non-2xx status returns a recoverable
`API_ERROR` result; a 2xx response yields the placeholder metrics. -/
def metricsFetch (w : Widget) (now : Int) (tokenOutcome : TokenFetchOutcome)
    (vendorOutcome : FetchOutcome) : Except String (WidgetDataResult AnalyticsMetrics) :=
  if !(strTruthy w.packageName) then
    .ok (createErrorResult AnalyticsMetrics "CONFIG_ERROR"
      "Package name is required in widget configuration" false now)
  else
    match w.oauth2Manager with
    | none => .error "Cannot read properties of undefined (reading \x27getValidAccessToken\x27)"
    | some m =>
      match (OAuth2.getValidAccessToken m now tokenOutcome).1 with
      | .error e => .error e
      | .ok _token =>
        match vendorOutcome with
        | .netError msg => .error msg
        | .resp status =>
          if !(httpOk status) then
            .ok (createErrorResult AnalyticsMetrics "API_ERROR"
              ("Failed to fetch metrics: " ++ toString status) true now)
          else
            .ok (createSuccessResult
              { totalDownloads := some 0
                totalRevenue := some 0
                currency := some "USD"
                activeUsers := none
                trend := [] } now)

/-- `GooglePlayWidget.getMetrics`: `ensureInitialized()` throws outside the
`try`; every exception inside becomes a `FETCH_ERROR` result. -/
def getMetrics (w : Widget) (_tr : TimeRange) (now : Int) (tokenOutcome : TokenFetchOutcome)
    (vendorOutcome : FetchOutcome) : Except String (WidgetDataResult AnalyticsMetrics) :=
  if !w.initialized then
    .error (notInitializedMsg "google_play")
  else
    .ok (catchFetchError AnalyticsMetrics now (metricsFetch w now tokenOutcome vendorOutcome))

end GooglePlay

namespace Amazon

/-- State of an `AmazonAffiliateWidget`: `BaseWidget` fields plus the cached
credential fields set by `validateAuth`. -/
structure Widget where
  initialized : Bool
  authConfig : Option AuthConfig
  accessKeyId : Option String
  secretAccessKey : Option String
  partnerTag : Option String
  marketplace : String
deriving DecidableEq, Repr

/-- `new AmazonAffiliateWidget(config)`. -/
def mkWidget : Widget :=
  { initialized := false, authConfig := none, accessKeyId := none
    secretAccessKey := none, partnerTag := none, marketplace := "www.amazon.com" }

/-- `AmazonAffiliateWidget.validateAuth`: requires truthy `accessKeyId`,
`secretAccessKey` and `partnerTag` credentials and caches them on the widget
(`marketplace` only when present, via `??`). -/
def validateAuth (w : Widget) : Except String Widget :=
  match w.authConfig with
  | none => .error "Authentication configuration is required"
  | some ac =>
    let accessKeyId := credLookup ac.credentials "accessKeyId"
    let secretAccessKey := credLookup ac.credentials "secretAccessKey"
    let partnerTag := credLookup ac.credentials "partnerTag"
    if !(strTruthy accessKeyId) || !(strTruthy secretAccessKey) || !(strTruthy partnerTag) then
      .error "Amazon Affiliate auth requires accessKeyId, secretAccessKey, and partnerTag"
    else
      .ok { w with
        accessKeyId := accessKeyId
        secretAccessKey := secretAccessKey
        partnerTag := partnerTag
        marketplace :=
          match credLookup ac.credentials "marketplace" with
          | some m => m
          | none => w.marketplace }

/-- `BaseWidget.initialize` specialised to `AmazonAffiliateWidget`. -/
def initWidget (w : Widget) (ac : AuthConfig) : Except String Widget :=
  match validateAuth { w with authConfig := some ac } with
  | .error e => .error e
  | .ok w2 => .ok { w2 with initialized := true }

/-- `BaseWidget.disconnect` as inherited by `AmazonAffiliateWidget`: it resets
`initialized` and `authConfig` but leaves the cached credential fields in
place. -/
def disconnect (w : Widget) : Widget :=
  { w with initialized := false, authConfig := none }

/-- `AmazonAffiliateWidget.isAuthenticated`: truthiness of the three cached
credential fields. -/
def isAuthenticated (w : Widget) : Bool :=
  strTruthy w.accessKeyId && strTruthy w.secretAccessKey && strTruthy w.partnerTag

/-- `AmazonAffiliateMetrics` as returned by the stubbed
`getAffiliateMetrics` (zeroed, no HTTP call is made). -/
structure AffiliateMetrics where
  clicks : Int
  conversions : Int
  revenue : Int
  currency : String
deriving DecidableEq, Repr

/-- `AmazonAffiliateWidget.getAffiliateMetrics`: inert stub. -/
def getAffiliateMetrics : AffiliateMetrics :=
  { clicks := 0, conversions := 0, revenue := 0, currency := "USD" }

/-- `AmazonAffiliateWidget.getMetrics`: `ensureInitialized()` throws outside
the `try`; the body only calls the non-throwing stub, so it always succeeds. -/
def getMetrics (w : Widget) (_tr : TimeRange) (now : Int) :
    Except String (WidgetDataResult AnalyticsMetrics) :=
  if !w.initialized then
    .error (notInitializedMsg "amazon_affiliate")
  else
    .ok (catchFetchError AnalyticsMetrics now
      (.ok (createSuccessResult
        { totalDownloads := none
          totalRevenue := some getAffiliateMetrics.revenue
          currency := some getAffiliateMetrics.currency
          activeUsers := none
          trend := [] } now)))

/-- `AmazonAffiliateWidget.getSalesData`: `ensureInitialized()` then a map
over the stub's empty `topProducts`. -/
def getSalesData (w : Widget) (_tr : TimeRange) (now : Int) :
    Except String (WidgetDataResult (List SalesData)) :=
  if !w.initialized then
    .error (notInitializedMsg "amazon_affiliate")
  else
    .ok (catchFetchError (List SalesData) now
      (.ok (createSuccessResult ([] : List SalesData) now)))

/-- `AmazonAffiliateWidget.getDownloadStats`: not applicable; empty success
without any initialization check. -/
def getDownloadStats (_w : Widget) (_tr : TimeRange) (now : Int) :
    Except String (WidgetDataResult (List DownloadStats)) :=
  .ok (createSuccessResult ([] : List DownloadStats) now)

end Amazon

namespace Registry

/-- A widget factory as the registry sees it: `getWidgetType()` is the
`widgetType` field.  (`createWidget` of a factory constructs a fresh,
uninitialized widget and never throws; the registry claims below only
depend on the declared type string, so the constructed instance is
represented by that type string.) -/
structure WidgetFactory where
  widgetType : String
deriving DecidableEq, Repr

/-- `WidgetRegistry` state: the `factories` map (type string to factory) and
the `instances` map (widget id to the tracked instance, represented by its
type string).  Both `Map`s are association lists with unique keys. -/
structure WidgetRegistry where
  factories : List (String × WidgetFactory)
  instances : List (String × String)
deriving DecidableEq, Repr

/-- `Map.has` on the factories map. -/
def hasFactory (reg : WidgetRegistry) (t : String) : Bool :=
  (reg.factories.find? (fun p => p.1 == t)).isSome

/-- `WidgetRegistry.registerFactory`: throws when the factory's declared type
string is already registered, otherwise adds it. -/
def registerFactory (reg : WidgetRegistry) (f : WidgetFactory) :
    Except String WidgetRegistry :=
  if hasFactory reg f.widgetType then
    .error ("Widget factory for type \x27" ++ f.widgetType ++ "\x27 is already registered")
  else
    .ok { reg with factories := reg.factories ++ [(f.widgetType, f)] }

/-- `WidgetRegistry.unregisterFactory`: `Map.delete` — returns whether the
type was present and removes its entry. -/
def unregisterFactory (reg : WidgetRegistry) (t : String) : Bool × WidgetRegistry :=
  (hasFactory reg t,
   { reg with factories := reg.factories.filter (fun p => !(p.1 == t)) })

/-- `WidgetRegistry.createWidget` on the no-`authConfig` path (the only one the
claims exercise; with an `authConfig` the source additionally runs
`initialize` before tracking): look up the factory by `config.type`, throw
when absent, construct the widget and track it under `config.id`
(overwriting any prior instance with that id). -/
def createWidget (reg : WidgetRegistry) (config : WidgetConfig) :
    Except String (String × WidgetRegistry) :=
  match reg.factories.find? (fun p => p.1 == config.type) with
  | none =>
    .error ("No factory registered for widget type \x27" ++ config.type ++ "\x27")
  | some p =>
    .ok (p.2.widgetType,
      { reg with instances :=
          reg.instances.filter (fun q => !(q.1 == config.id)) ++ [(config.id, p.2.widgetType)] })

/-- The nine built-in factories, in the registration order of
`registerBuiltInFactories`. -/
def builtInFactories : List WidgetFactory :=
  [⟨"apple_app_store"⟩, ⟨"google_play"⟩, ⟨"ingramspark"⟩, ⟨"draft2digital"⟩,
   ⟨"facebook"⟩, ⟨"youtube"⟩, ⟨"tiktok"⟩, ⟨"amazon_affiliate"⟩, ⟨"rss_feed"⟩]

/-- The nine built-in widget type strings. -/
def builtInTypes : List String :=
  builtInFactories.map (fun f => f.widgetType)

/-- Register a list of factories in order, propagating the first failure. -/
def registerAll (reg : WidgetRegistry) : List WidgetFactory → Except String WidgetRegistry
  | [] => .ok reg
  | f :: fs =>
    match registerFactory reg f with
    | .error e => .error e
    | .ok reg2 => registerAll reg2 fs

/-- `new WidgetRegistry()`: the constructor runs `registerBuiltInFactories`,
i.e. registers the nine built-in factories into an empty registry. -/
def newRegistry : Except String WidgetRegistry :=
  registerAll { factories := [], instances := [] } builtInFactories

/-- The registry value a fresh `new WidgetRegistry()` holds (the constructor
cannot throw; `C10_builtin_factories` below proves `newRegistry` returns
exactly this value). -/
def freshRegistry : WidgetRegistry :=
  { factories := builtInFactories.map (fun f => (f.widgetType, f)), instances := [] }

end Registry

/-! ## Concrete example values used by witnesses and counterexamples -/

/-- An authenticated manager state: access token, refresh token and an
expiry instant are all stored. -/
def exCfg : OAuth2Config :=
  { clientId := "client", clientSecret := "secret"
    redirectUri := "http://localhost:3000/callback"
    scope := ["read"], authorizationUrl := "https://auth.example/authorize"
    tokenUrl := "https://auth.example/token"
    accessToken := some "tok", refreshToken := some "ref", expiresAt := some 100000 }

/-- A token-endpoint response body whose `expires_in` is `0` and whose
`refresh_token` is the empty string (both JavaScript-falsy). -/
def cxBody : TokenResponse :=
  { access_token := "newtok", token_type := "Bearer"
    expires_in := some 0, refresh_token := some "", scope := none }

/-- An ordinary successful refresh response body. -/
def exBody : TokenResponse :=
  { access_token := "fresh", token_type := "Bearer"
    expires_in := some 3600, refresh_token := some "ref2", scope := none }

/-- A reporting window. -/
def exTimeRange : TimeRange :=
  { startDate := 0, endDate := 86400000 }

/-- An initialized TikTok widget holding an authenticated manager. -/
def exTikTok : TikTok.Widget :=
  { initialized := true, authConfig := none, oauth2Manager := some exCfg }

/-- An initialized Facebook widget with a configured page id. -/
def exFacebook : Facebook.Widget :=
  { initialized := true, authConfig := none, oauth2Manager := some exCfg
    pageId := some "page1" }

/-- An initialized Google Play widget with a configured package name. -/
def exGooglePlay : GooglePlay.Widget :=
  { initialized := true, authConfig := none, oauth2Manager := some exCfg
    packageName := some "com.example.app" }

/-- An initialized Amazon Affiliate widget with cached credentials. -/
def exAmazon : Amazon.Widget :=
  { initialized := true, authConfig := none, accessKeyId := some "AK"
    secretAccessKey := some "SK", partnerTag := some "PT"
    marketplace := "www.amazon.com" }

/-- A complete `api_key` auth config for the Amazon Affiliate widget. -/
def exAmazonAuth : AuthConfig :=
  { id := "auth1", type := "api_key"
    credentials := [("accessKeyId", "AK"), ("secretAccessKey", "SK"),
                    ("partnerTag", "PT")] }

/-! ## Helper lemmas -/

/-- A truthy optional string is `some` of its `getD ""` value. -/
theorem strTruthy_eq_some {x : Option String} (h : strTruthy x = true) :
    x = some (x.getD "") := by
  cases x with
  | none => simp [strTruthy] at h
  | some s => rfl

/-- A successful `refreshAccessToken` returns the `updateTokens` state. -/
theorem refreshAccessToken_ok_state (cfg : OAuth2Config) (now : Int)
    (o : TokenFetchOutcome) (tr : TokenResponse) (cfg2 : OAuth2Config)
    (h : OAuth2.refreshAccessToken cfg now o = (.ok tr, cfg2)) :
    cfg2 = OAuth2.updateTokens cfg now tr := by
  unfold OAuth2.refreshAccessToken at h
  split at h
  · simp [Prod.ext_iff] at h
  · cases o with
    | netError msg => simp [Prod.ext_iff] at h
    | resp status body errorText =>
      simp only at h
      split at h
      · rw [Prod.ext_iff] at h
        obtain ⟨h1, h2⟩ := h
        injection h1 with hbt
        subst hbt
        exact h2.symm
      · simp [Prod.ext_iff] at h

/-! ## Claims -/

/-- C1: `getValidAccessToken()` fails (with no refresh attempt) when no access
token is stored in the manager (`isAuthenticated()` false); otherwise it
performs exactly one `refreshAccessToken()` call when `isTokenExpired()` is
true and zero when it is false, and whenever it returns a token, that token
is the access token stored in the manager after the possible refresh. -/
theorem C1_getValidAccessToken (cfg : OAuth2Config) (now : Int) (o : TokenFetchOutcome) :
    (OAuth2.isAuthenticated cfg = false →
      (∃ e, (OAuth2.getValidAccessToken cfg now o).1 = .error e) ∧
      (OAuth2.getValidAccessToken cfg now o).2.2 = 0) ∧
    (OAuth2.isAuthenticated cfg = true →
      (OAuth2.getValidAccessToken cfg now o).2.2
        = (if OAuth2.isTokenExpired cfg now 60 then 1 else 0) ∧
      ∀ t, (OAuth2.getValidAccessToken cfg now o).1 = .ok t →
        (OAuth2.getValidAccessToken cfg now o).2.1.accessToken = some t) := by
  unfold OAuth2.isAuthenticated
  constructor
  · intro h
    unfold OAuth2.getValidAccessToken
    simp only [h, Bool.not_false, if_true]
    exact ⟨⟨_, rfl⟩, by trivial⟩
  · intro h
    unfold OAuth2.getValidAccessToken
    by_cases hexp : OAuth2.isTokenExpired cfg now 60
    · rcases hr : OAuth2.refreshAccessToken cfg now o with ⟨r, cfg2⟩
      cases r with
      | error e => simp [h, hexp, hr]
      | ok tr =>
        have hstate : cfg2 = OAuth2.updateTokens cfg now tr :=
          refreshAccessToken_ok_state cfg now o tr cfg2 hr
        simp only [h, hexp, hr, Bool.not_true, Bool.false_eq_true, if_false, if_true]
        refine ⟨by trivial, ?_⟩
        intro t ht
        injection ht with ht
        subst ht
        subst hstate
        rfl
    · have hexp' : OAuth2.isTokenExpired cfg now 60 = false := by
        revert hexp
        cases OAuth2.isTokenExpired cfg now 60 <;> simp
      simp only [h, hexp', Bool.not_true, Bool.false_eq_true, if_false]
      refine ⟨by simp, ?_⟩
      intro t ht
      injection ht with ht
      subst ht
      exact strTruthy_eq_some h

/-- C1 witness: an authenticated manager with an expired token performs
exactly one refresh and returns the freshly stored token. -/
theorem C1_witness :
    OAuth2.isAuthenticated exCfg = true ∧
    ((OAuth2.getValidAccessToken exCfg 200000 (.resp 200 exBody "")).2.2
       = (if OAuth2.isTokenExpired exCfg 200000 60 then 1 else 0) ∧
     ∀ t, (OAuth2.getValidAccessToken exCfg 200000 (.resp 200 exBody "")).1 = .ok t →
       (OAuth2.getValidAccessToken exCfg 200000 (.resp 200 exBody "")).2.1.accessToken
         = some t) :=
  ⟨rfl, (C1_getValidAccessToken exCfg 200000 (.resp 200 exBody "")).2 rfl⟩

/-- C2: `isTokenExpired(bufferSeconds)` is false when no `expiresAt` is
stored, and otherwise true exactly when the current time is at or past
`expiresAt - bufferSeconds` (in milliseconds), for any buffer ≥ 0. -/
theorem C2_isTokenExpired_threshold (cfg : OAuth2Config) (now buf : Int) (_hb : 0 ≤ buf) :
    (cfg.expiresAt = none → OAuth2.isTokenExpired cfg now buf = false) ∧
    (∀ e, cfg.expiresAt = some e →
      (OAuth2.isTokenExpired cfg now buf = true ↔ e - buf * 1000 ≤ now)) := by
  constructor
  · intro h
    unfold OAuth2.isTokenExpired
    rw [h]
  · intro e h
    unfold OAuth2.isTokenExpired
    rw [h]
    exact decide_eq_true_iff

/-- C2 witness: with `expiresAt = 100000` ms and the default 60 s buffer, the
token counts as expired at `now = 101000` ms. -/
theorem C2_witness : OAuth2.isTokenExpired exCfg 101000 60 = true :=
  ((C2_isTokenExpired_threshold exCfg 101000 60 (by norm_num)).2 100000 rfl).mpr
    (by norm_num)

/-- C3 counterexample: a successful (2xx) refresh whose response body carries
`expires_in = 0` and `refresh_token = ""` — i.e. the response *does* include
both fields — stores the new access token but leaves both `expiresAt`
(still `500 ≠ now + 0·1000 = 1000`) and the stored refresh token unchanged,
contradicting the claim that `expiresAt` is set whenever `expires_in` is
provided. -/
theorem C3_counterexample :
    cxBody.expires_in = some 0 ∧
    cxBody.refresh_token = some "" ∧
    (OAuth2.refreshAccessToken { exCfg with expiresAt := some 500 } 1000
       (.resp 200 cxBody "")).1 = .ok cxBody ∧
    (OAuth2.refreshAccessToken { exCfg with expiresAt := some 500 } 1000
       (.resp 200 cxBody "")).2.expiresAt = some 500 ∧
    (OAuth2.refreshAccessToken { exCfg with expiresAt := some 500 } 1000
       (.resp 200 cxBody "")).2.refreshToken = some "ref" ∧
    (500 : Int) ≠ 1000 + 0 * 1000 :=
  ⟨rfl, rfl, rfl, rfl, rfl, by norm_num⟩

/-- C3 (amended): `refreshAccessToken()` fails when no (truthy) refresh token
is stored, leaving the manager state unchanged; on a 2xx token-endpoint
response it stores the new `access_token`, overwrites the stored refresh
token only when the response carries a non-empty `refresh_token`, and sets
`expiresAt` to now plus `expires_in` seconds only when the response carries a
nonzero `expires_in` (a zero `expires_in`, like an absent one, leaves
`expiresAt` unchanged). -/
theorem C3_refreshAccessToken_amended (cfg : OAuth2Config) (now : Int) :
    (strTruthy cfg.refreshToken = false → ∀ o,
      OAuth2.refreshAccessToken cfg now o = (.error "No refresh token available", cfg)) ∧
    (strTruthy cfg.refreshToken = true → ∀ status body errText, httpOk status = true →
      OAuth2.refreshAccessToken cfg now (.resp status body errText)
        = (.ok body, OAuth2.updateTokens cfg now body) ∧
      (OAuth2.updateTokens cfg now body).accessToken = some body.access_token ∧
      (strTruthy body.refresh_token = true →
        (OAuth2.updateTokens cfg now body).refreshToken = body.refresh_token) ∧
      (strTruthy body.refresh_token = false →
        (OAuth2.updateTokens cfg now body).refreshToken = cfg.refreshToken) ∧
      (∀ n, body.expires_in = some n → n ≠ 0 →
        (OAuth2.updateTokens cfg now body).expiresAt = some (now + n * 1000)) ∧
      (body.expires_in = none ∨ body.expires_in = some 0 →
        (OAuth2.updateTokens cfg now body).expiresAt = cfg.expiresAt)) := by
  constructor
  · intro h o
    unfold OAuth2.refreshAccessToken
    simp [h]
  · intro h status body errText hok
    refine ⟨?_, rfl, ?_, ?_, ?_, ?_⟩
    · unfold OAuth2.refreshAccessToken
      simp [h, hok]
    · intro ht
      simp [OAuth2.updateTokens, ht]
    · intro ht
      simp [OAuth2.updateTokens, ht]
    · intro n hn hnz
      simp [OAuth2.updateTokens, hn, hnz]
    · intro hcase
      rcases hcase with hc | hc <;> simp [OAuth2.updateTokens, hc]

/-- C3 witness: with a stored refresh token and an ordinary 2xx response
(`expires_in = 3600`, `refresh_token = "ref2"`), the refresh stores the new
tokens and recomputes `expiresAt = now + 3600·1000`. -/
theorem C3_witness :
    strTruthy exCfg.refreshToken = true ∧ httpOk 200 = true ∧
    OAuth2.refreshAccessToken exCfg 1000 (.resp 200 exBody "")
      = (.ok exBody, OAuth2.updateTokens exCfg 1000 exBody) ∧
    (OAuth2.updateTokens exCfg 1000 exBody).accessToken = some exBody.access_token :=
  ⟨rfl, rfl,
    ((C3_refreshAccessToken_amended exCfg 1000).2 rfl 200 exBody "" rfl).1,
    ((C3_refreshAccessToken_amended exCfg 1000).2 rfl 200 exBody "" rfl).2.1⟩

/-- C4: on an initialized widget the data-fetch methods never throw — every
exception raised inside the fetch (including a failing token refresh inside
`getValidAccessToken`) is captured and returned as a `FETCH_ERROR` result. -/
theorem C4_fetch_never_throws (wt : TikTok.Widget) (wf : Facebook.Widget)
    (wg : GooglePlay.Widget) (wa : Amazon.Widget) (tr : TimeRange) (now : Int)
    (tko : TokenFetchOutcome) (vo : FetchOutcome)
    (ht : wt.initialized = true) (hf : wf.initialized = true)
    (hg : wg.initialized = true) (ha : wa.initialized = true) :
    (∃ r, TikTok.getMetrics wt tr now tko vo = .ok r) ∧
    (∃ r, Facebook.getMetrics wf tr now tko vo = .ok r) ∧
    (∃ r, GooglePlay.getMetrics wg tr now tko vo = .ok r) ∧
    (∃ r, Amazon.getMetrics wa tr now = .ok r) ∧
    (∃ r, Amazon.getSalesData wa tr now = .ok r) ∧
    (∃ r, TikTok.getSalesData wt tr now = .ok r) ∧
    (∃ r, TikTok.getDownloadStats wt tr now = .ok r) ∧
    (∀ e, TikTok.metricsFetch wt now tko vo = .error e →
      TikTok.getMetrics wt tr now tko vo
        = .ok (createErrorResult AnalyticsMetrics "FETCH_ERROR" e true now)) ∧
    (∀ e, Facebook.metricsFetch wf now tko vo = .error e →
      Facebook.getMetrics wf tr now tko vo
        = .ok (createErrorResult AnalyticsMetrics "FETCH_ERROR" e true now)) := by
  refine ⟨?_, ?_, ?_, ?_, ?_, ⟨_, rfl⟩, ⟨_, rfl⟩, ?_, ?_⟩
  · exact ⟨catchFetchError AnalyticsMetrics now (TikTok.metricsFetch wt now tko vo),
      by simp [TikTok.getMetrics, ht]⟩
  · exact ⟨catchFetchError AnalyticsMetrics now (Facebook.metricsFetch wf now tko vo),
      by simp [Facebook.getMetrics, hf]⟩
  · exact ⟨catchFetchError AnalyticsMetrics now (GooglePlay.metricsFetch wg now tko vo),
      by simp [GooglePlay.getMetrics, hg]⟩
  · exact ⟨createSuccessResult
      { totalDownloads := none
        totalRevenue := some Amazon.getAffiliateMetrics.revenue
        currency := some Amazon.getAffiliateMetrics.currency
        activeUsers := none
        trend := [] } now,
      by simp [Amazon.getMetrics, ha, catchFetchError]⟩
  · exact ⟨createSuccessResult ([] : List SalesData) now,
      by simp [Amazon.getSalesData, ha, catchFetchError]⟩
  · intro e he
    simp [TikTok.getMetrics, ht, catchFetchError, he]
  · intro e he
    simp [Facebook.getMetrics, hf, catchFetchError, he]

/-- C4 witness: when the refresh call raises (network error) under an expired
token, `getMetrics` returns a `FETCH_ERROR` result instead of throwing. -/
theorem C4_witness :
    exTikTok.initialized = true ∧
    TikTok.getMetrics exTikTok exTimeRange 200000 (.netError "refresh down") (.resp 200)
      = .ok (createErrorResult AnalyticsMetrics "FETCH_ERROR" "refresh down" true 200000) :=
  ⟨rfl,
    (C4_fetch_never_throws exTikTok exFacebook exGooglePlay exAmazon exTimeRange 200000
        (.netError "refresh down") (.resp 200) rfl rfl rfl rfl).2.2.2.2.2.2.2.1
      "refresh down" rfl⟩

/-- C5 counterexample: in `TikTokWidget.getMetrics` a non-2xx vendor response
(here 500) surfaces as a `FETCH_ERROR` result — not the `API_ERROR` the
claim requires for every vendor widget's data-fetch methods. -/
theorem C5_counterexample :
    exTikTok.initialized = true ∧
    TikTok.getMetrics exTikTok exTimeRange 0 (.netError "unused") (.resp 500)
      = .ok (createErrorResult AnalyticsMetrics "FETCH_ERROR" "TikTok API error: 500" true 0) ∧
    "FETCH_ERROR" ≠ "API_ERROR" :=
  ⟨rfl, rfl, by decide⟩

/-- C5 (amended): widgets that inspect the vendor HTTP status inline (e.g.
Google Play) map a non-2xx response to `API_ERROR` (recoverable), a thrown
exception to `FETCH_ERROR` (recoverable) and missing required configuration
to `CONFIG_ERROR` (non-recoverable); widgets whose fetch helper throws on a
non-2xx status (e.g. TikTok) surface the non-2xx response as `FETCH_ERROR`
(recoverable) instead. -/
theorem C5_error_taxonomy_amended (wg : GooglePlay.Widget) (wt : TikTok.Widget)
    (tr : TimeRange) (now : Int) (tko : TokenFetchOutcome) (vo : FetchOutcome)
    (hg : wg.initialized = true) (ht : wt.initialized = true) :
    (strTruthy wg.packageName = false →
      GooglePlay.getMetrics wg tr now tko vo
        = .ok (createErrorResult AnalyticsMetrics "CONFIG_ERROR"
            "Package name is required in widget configuration" false now)) ∧
    (∀ m tok status, strTruthy wg.packageName = true →
      wg.oauth2Manager = some m →
      (OAuth2.getValidAccessToken m now tko).1 = .ok tok →
      httpOk status = false →
      GooglePlay.getMetrics wg tr now tko (.resp status)
        = .ok (createErrorResult AnalyticsMetrics "API_ERROR"
            ("Failed to fetch metrics: " ++ toString status) true now)) ∧
    (∀ m tok msg, strTruthy wg.packageName = true →
      wg.oauth2Manager = some m →
      (OAuth2.getValidAccessToken m now tko).1 = .ok tok →
      GooglePlay.getMetrics wg tr now tko (.netError msg)
        = .ok (createErrorResult AnalyticsMetrics "FETCH_ERROR" msg true now)) ∧
    (∀ m tok status, wt.oauth2Manager = some m →
      (OAuth2.getValidAccessToken m now tko).1 = .ok tok →
      httpOk status = false →
      TikTok.getMetrics wt tr now tko (.resp status)
        = .ok (createErrorResult AnalyticsMetrics "FETCH_ERROR"
            ("TikTok API error: " ++ toString status) true now)) := by
  refine ⟨?_, ?_, ?_, ?_⟩
  · intro hpk
    simp [GooglePlay.getMetrics, hg, GooglePlay.metricsFetch, hpk, catchFetchError]
  · intro m tok status hpk hm htok hst
    simp [GooglePlay.getMetrics, hg, GooglePlay.metricsFetch, hpk, hm, htok, hst,
      catchFetchError]
  · intro m tok msg hpk hm htok
    simp [GooglePlay.getMetrics, hg, GooglePlay.metricsFetch, hpk, hm, htok,
      catchFetchError]
  · intro m tok status hm htok hst
    simp [TikTok.getMetrics, ht, TikTok.metricsFetch, hm, htok,
      TikTok.getUserStats, hst, catchFetchError]

/-- C5 witness: an initialized Google Play widget with a package name and a
valid token maps a 404 vendor response to a recoverable `API_ERROR`. -/
theorem C5_witness :
    exGooglePlay.initialized = true ∧
    GooglePlay.getMetrics exGooglePlay exTimeRange 0 (.netError "unused") (.resp 404)
      = .ok (createErrorResult AnalyticsMetrics "API_ERROR"
          ("Failed to fetch metrics: " ++ toString 404) true 0) :=
  ⟨rfl,
    (C5_error_taxonomy_amended exGooglePlay exTikTok exTimeRange 0 (.netError "unused")
        (.resp 200) rfl rfl).2.1 exCfg "tok" 404 rfl rfl rfl rfl⟩

/-- C6 counterexample: `TikTokWidget.getSalesData` on a freshly constructed
(never initialized) widget does not throw `NotInitializedError` — it returns
an empty success result, refuting the claim that every data-fetch method
checks initialization first. -/
theorem C6_counterexample :
    TikTok.mkWidget.initialized = false ∧
    TikTok.getSalesData TikTok.mkWidget exTimeRange 0
      = .ok (createSuccessResult ([] : List SalesData) 0) :=
  ⟨rfl, rfl⟩

/-- C6 (amended): the data-fetch methods that perform a vendor fetch invoke
`ensureInitialized()` before anything else and throw `NotInitializedError`
on an uninitialized widget; the not-applicable stub methods (TikTok and
Facebook `getSalesData`/`getDownloadStats`, Amazon `getDownloadStats`)
skip the check and return empty success even when uninitialized. -/
theorem C6_ensureInitialized_amended (wt : TikTok.Widget) (wf : Facebook.Widget)
    (wg : GooglePlay.Widget) (wa : Amazon.Widget) (tr : TimeRange) (now : Int)
    (tko : TokenFetchOutcome) (vo : FetchOutcome)
    (ht : wt.initialized = false) (hf : wf.initialized = false)
    (hg : wg.initialized = false) (ha : wa.initialized = false) :
    TikTok.getMetrics wt tr now tko vo = .error (notInitializedMsg "tiktok") ∧
    Facebook.getMetrics wf tr now tko vo = .error (notInitializedMsg "facebook") ∧
    GooglePlay.getMetrics wg tr now tko vo = .error (notInitializedMsg "google_play") ∧
    Amazon.getMetrics wa tr now = .error (notInitializedMsg "amazon_affiliate") ∧
    Amazon.getSalesData wa tr now = .error (notInitializedMsg "amazon_affiliate") ∧
    TikTok.getSalesData wt tr now = .ok (createSuccessResult ([] : List SalesData) now) ∧
    TikTok.getDownloadStats wt tr now
      = .ok (createSuccessResult ([] : List DownloadStats) now) ∧
    Facebook.getSalesData wf tr now = .ok (createSuccessResult ([] : List SalesData) now) ∧
    Facebook.getDownloadStats wf tr now
      = .ok (createSuccessResult ([] : List DownloadStats) now) ∧
    Amazon.getDownloadStats wa tr now
      = .ok (createSuccessResult ([] : List DownloadStats) now) := by
  refine ⟨?_, ?_, ?_, ?_, ?_, rfl, rfl, rfl, rfl, rfl⟩
  · simp [TikTok.getMetrics, ht]
  · simp [Facebook.getMetrics, hf]
  · simp [GooglePlay.getMetrics, hg]
  · simp [Amazon.getMetrics, ha]
  · simp [Amazon.getSalesData, ha]

/-- C6 amended witness: the freshly constructed widgets are uninitialized,
`getMetrics` throws and the TikTok sales stub succeeds. -/
theorem C6_witness :
    TikTok.mkWidget.initialized = false ∧
    TikTok.getMetrics TikTok.mkWidget exTimeRange 0 (.netError "x") (.resp 200)
      = .error (notInitializedMsg "tiktok") :=
  ⟨rfl,
    (C6_ensureInitialized_amended TikTok.mkWidget (Facebook.mkWidget ⟨"w", "facebook", []⟩)
        (GooglePlay.mkWidget ⟨"w", "google_play", []⟩) Amazon.mkWidget exTimeRange 0
        (.netError "x") (.resp 200) rfl rfl rfl rfl).1⟩

/-- C7: the data-fetch methods for shapes not applicable to a vendor (TikTok
and Facebook sales/downloads, Amazon downloads) return `status: success` with
empty data for every widget state and time range — never an error result. -/
theorem C7_not_applicable_empty_success (wt : TikTok.Widget) (wf : Facebook.Widget)
    (wa : Amazon.Widget) (tr : TimeRange) (now : Int) :
    TikTok.getSalesData wt tr now = .ok (createSuccessResult ([] : List SalesData) now) ∧
    TikTok.getDownloadStats wt tr now
      = .ok (createSuccessResult ([] : List DownloadStats) now) ∧
    Facebook.getSalesData wf tr now = .ok (createSuccessResult ([] : List SalesData) now) ∧
    Facebook.getDownloadStats wf tr now
      = .ok (createSuccessResult ([] : List DownloadStats) now) ∧
    Amazon.getDownloadStats wa tr now
      = .ok (createSuccessResult ([] : List DownloadStats) now) :=
  ⟨rfl, rfl, rfl, rfl, rfl⟩

/-- C8 counterexample: initialize an Amazon Affiliate widget with complete
credentials, `disconnect()`, and `isAuthenticated()` still reports true —
the cached credential fields are not cleared, refuting the claim. -/
theorem C8_counterexample :
    (Amazon.initWidget Amazon.mkWidget exAmazonAuth).map
        (fun w => Amazon.isAuthenticated (Amazon.disconnect w)) = .ok true :=
  rfl

/-- C8 (amended): after `disconnect()` the widget is marked uninitialized and
its `authConfig` is cleared, so the data-fetch methods that check
initialization throw `NotInitializedError`; but the cached credential fields
survive, so `isAuthenticated()` is unchanged (it can still report
authenticated), and the not-applicable stub still returns empty success. -/
theorem C8_disconnect_amended (wa : Amazon.Widget) (tr : TimeRange) (now : Int) :
    (Amazon.disconnect wa).initialized = false ∧
    (Amazon.disconnect wa).authConfig = none ∧
    Amazon.getMetrics (Amazon.disconnect wa) tr now
      = .error (notInitializedMsg "amazon_affiliate") ∧
    Amazon.getSalesData (Amazon.disconnect wa) tr now
      = .error (notInitializedMsg "amazon_affiliate") ∧
    Amazon.isAuthenticated (Amazon.disconnect wa) = Amazon.isAuthenticated wa ∧
    Amazon.getDownloadStats (Amazon.disconnect wa) tr now
      = .ok (createSuccessResult ([] : List DownloadStats) now) :=
  ⟨rfl, rfl, rfl, rfl, rfl, rfl⟩

/-- After filtering out every entry keyed `t`, looking `t` up finds nothing
(`Map.delete` followed by `Map.get`/`Map.has`). -/
theorem find?_filter_self (l : List (String × Registry.WidgetFactory)) (t : String) :
    (l.filter (fun p => !(p.1 == t))).find? (fun p => p.1 == t) = none := by
  induction l with
  | nil => rfl
  | cons a l ih =>
    cases hab : (a.1 == t) with
    | true => simp [List.filter_cons, hab, ih]
    | false => simp [List.filter_cons, hab, List.find?_cons, ih]

/-- C9: `registerFactory` throws exactly when a factory for the same declared
type string is already registered; after `unregisterFactory(type)`,
`hasFactory(type)` is false and `createWidget` of a config with that type
throws the unknown-widget-type error. -/
theorem C9_registry_factory_lifecycle (reg : Registry.WidgetRegistry)
    (f : Registry.WidgetFactory) (t : String) (config : WidgetConfig)
    (hc : config.type = t) :
    ((∃ e, Registry.registerFactory reg f = .error e) ↔
      Registry.hasFactory reg f.widgetType = true) ∧
    Registry.hasFactory (Registry.unregisterFactory reg t).2 t = false ∧
    Registry.createWidget (Registry.unregisterFactory reg t).2 config
      = .error ("No factory registered for widget type \x27" ++ t ++ "\x27") := by
  subst hc
  refine ⟨?_, ?_, ?_⟩
  · unfold Registry.registerFactory
    by_cases h : Registry.hasFactory reg f.widgetType <;> simp [h]
  · unfold Registry.hasFactory Registry.unregisterFactory
    simp [find?_filter_self]
  · have hnone : ∀ l : List (String × Registry.WidgetFactory),
        l.find? (fun _ => false) = none := by
      intro l
      induction l with
      | nil => rfl
      | cons a l ih => simp [List.find?_cons, ih]
    unfold Registry.createWidget Registry.unregisterFactory
    simp [find?_filter_self, hnone]

/-- C9 witness: on a fresh registry, unregistering `tiktok` makes
`hasFactory` false and `createWidget` of a tiktok config throw. -/
theorem C9_witness :
    (WidgetConfig.mk "w1" "tiktok" []).type = "tiktok" ∧
    Registry.hasFactory (Registry.unregisterFactory Registry.freshRegistry "tiktok").2
      "tiktok" = false ∧
    Registry.createWidget (Registry.unregisterFactory Registry.freshRegistry "tiktok").2
      (WidgetConfig.mk "w1" "tiktok" [])
      = .error ("No factory registered for widget type \x27" ++ "tiktok" ++ "\x27") :=
  ⟨rfl,
    (C9_registry_factory_lifecycle Registry.freshRegistry ⟨"custom"⟩ "tiktok"
      (WidgetConfig.mk "w1" "tiktok" []) rfl).2⟩

/-- C10: a fresh `new WidgetRegistry()` succeeds and holds factories for all
nine built-in vendor widget types, and registering a custom factory whose
declared type equals any of them throws immediately. -/
theorem C10_builtin_factories :
    Registry.newRegistry = .ok Registry.freshRegistry ∧
    Registry.builtInTypes.all (fun t => Registry.hasFactory Registry.freshRegistry t)
      = true ∧
    ∀ f : Registry.WidgetFactory, f.widgetType ∈ Registry.builtInTypes →
      ∃ e, Registry.registerFactory Registry.freshRegistry f = .error e := by
  refine ⟨by rfl, by decide, ?_⟩
  intro f hf
  have hhas : Registry.hasFactory Registry.freshRegistry f.widgetType = true := by
    have hf' : f.widgetType ∈ Registry.builtInTypes := hf
    unfold Registry.builtInTypes Registry.builtInFactories at hf'
    simp only [List.map_cons, List.map_nil, List.mem_cons, List.not_mem_nil, or_false]
      at hf'
    rcases hf' with h | h | h | h | h | h | h | h | h <;> rw [h] <;> decide
  unfold Registry.registerFactory
  simp [hhas]

/-- C10 witness: the built-in type `facebook` is pre-registered, and a custom
factory declaring type `facebook` is rejected. -/
theorem C10_witness :
    (Registry.WidgetFactory.mk "facebook").widgetType ∈ Registry.builtInTypes ∧
    ∃ e, Registry.registerFactory Registry.freshRegistry ⟨"facebook"⟩ = .error e :=
  ⟨by decide, C10_builtin_factories.2.2 ⟨"facebook"⟩ (by decide)⟩

end Dashboard
